import Mathlib

/-!
Verification of the nocturne_memory client against its specification.

The repository is a React client for a versioned knowledge-graph store with a
snapshot-based review/rollback subsystem.  We shallowly embed the pure logic of
the client handlers (`src/unnamed/part_000`, `src/unnamed/part_001`,
`src/frontend/src/features/memory/ChapterDetail.jsx`), the diff renderer
(`src/frontend/src/components/DiffViewer.jsx`) and the request-path builders
(`src/frontend/src/lib/api.js`).  Texts are modelled as `List Char`, JavaScript
`null`/`undefined` as `Option`, and the handlers as pure functions from the
component state (plus the user's confirm answers and request outcomes) to the
list of API requests issued and the successor state.
-/

namespace Nocturne

/-- Texts (JavaScript strings) are modelled as lists of characters. -/
abbrev Text := List Char

/-! ### Line tokenization

`diffLines` from the `diff` (jsdiff) npm package, used by
`DiffViewer.jsx`, tokenizes a string into lines, each line keeping its
trailing newline, and diffs the token lists.  `splitLinesKeep` is that
tokenizer: concatenating the tokens recovers the original text. -/

/-- Split a text into lines, each keeping its trailing newline character. -/
def splitLinesKeep : Text → List Text
  | [] => []
  | c :: cs =>
    if c = '\n' then [c] :: splitLinesKeep cs
    else
      match splitLinesKeep cs with
      | [] => [[c]]
      | l :: ls => (c :: l) :: ls

/-! ### Line diff

Model of jsdiff's `diffLines`: a longest-common-subsequence diff over the
line tokens producing insert/delete/equal runs.  (jsdiff coalesces adjacent
runs of the same kind into one part; we keep one token per part, which does
not affect which kinds of runs occur.) -/

/-- One part of a diff: an added, removed or equal token. -/
inductive DiffPart (α : Type) where
  | added (value : α)
  | removed (value : α)
  | equal (value : α)
deriving DecidableEq, Repr

/-- Whether a diff part is an `equal` run. -/
def DiffPart.isEqual {α : Type} : DiffPart α → Bool
  | .equal _ => true
  | _ => false

/-- Length of a longest common subsequence of two token lists. -/
def lcsLen {α : Type} [DecidableEq α] : List α → List α → Nat
  | [], _ => 0
  | _ :: _, [] => 0
  | x :: xs, y :: ys =>
    if x = y then lcsLen xs ys + 1
    else max (lcsLen xs (y :: ys)) (lcsLen (x :: xs) ys)
termination_by a b => a.length + b.length

/-- LCS-based diff of two token lists into added/removed/equal runs. -/
def diffTokens {α : Type} [DecidableEq α] : List α → List α → List (DiffPart α)
  | [], [] => []
  | [], y :: ys => .added y :: diffTokens [] ys
  | x :: xs, [] => .removed x :: diffTokens xs []
  | x :: xs, y :: ys =>
    if x = y then .equal x :: diffTokens xs ys
    else if lcsLen xs (y :: ys) ≥ lcsLen (x :: xs) ys then
      .removed x :: diffTokens xs (y :: ys)
    else
      .added y :: diffTokens (x :: xs) ys
termination_by a b => a.length + b.length

/-- The tokens of the old (source) side of a diff: removed and equal parts. -/
def sourceTokens {α : Type} : List (DiffPart α) → List α
  | [] => []
  | .added _ :: ps => sourceTokens ps
  | .removed v :: ps => v :: sourceTokens ps
  | .equal v :: ps => v :: sourceTokens ps

/-- The tokens of the new (target) side of a diff: added and equal parts. -/
def targetTokens {α : Type} : List (DiffPart α) → List α
  | [] => []
  | .added v :: ps => v :: targetTokens ps
  | .removed _ :: ps => targetTokens ps
  | .equal v :: ps => v :: targetTokens ps

/-- Model of jsdiff `diffLines`: tokenize both texts into lines (keeping line
endings) and diff the token lists. -/
def diffLines (oldText newText : Text) : List (DiffPart Text) :=
  diffTokens (splitLinesKeep oldText) (splitLinesKeep newText)

/-- `has_changes` of the diff result: some run of the line diff is not an
`equal` run. -/
def hasChanges (snapshotContent currentContent : Text) : Bool :=
  (diffLines snapshotContent currentContent).any fun p => !p.isEqual

/-! ### DiffViewer.jsx

`DiffViewer` (lines 5-10) and `SimpleDiff` (lines 61-62) both coerce a
missing text to the empty string with JavaScript `||` before diffing:
`const safeOld = oldText || ''` and `diffLines(oldText || '', newText || '')`.
A missing (null/undefined) text is modelled as `none`. -/

/-- JavaScript `x || ''` on a possibly-missing text: `null`/`undefined` (and
the empty string itself) coerce to the empty string. -/
def jsOrEmptyText : Option Text → Text
  | none => []
  | some t => t

/-- The diff computed by the `SimpleDiff` component (DiffViewer.jsx line 62). -/
def simpleDiffParts (oldText newText : Option Text) : List (DiffPart Text) :=
  diffLines (jsOrEmptyText oldText) (jsOrEmptyText newText)

/-- The diff computed by the `DiffViewer` component (DiffViewer.jsx lines 7-10). -/
def diffViewerParts (oldText newText : Option Text) : List (DiffPart Text) :=
  diffLines (jsOrEmptyText oldText) (jsOrEmptyText newText)

/-! ### Percent-encoding (api.js)

`api.js` line 8 defines `const encodeId = (id) => encodeURIComponent(id)` and
applies it to entity/state/edge/chapter/resource ids placed in request paths.
`encodeURIComponent` leaves the unreserved characters
`A-Z a-z 0-9 - _ . ! ~ * ' ( )` as they are and replaces every other byte by
`%` followed by two uppercase hex digits.  We model it on ASCII texts (each
character below 128), where the UTF-8 byte of a character is its code point;
`decodeURIComponentAscii` is the inverse transport decoding (a `none` result
models a URIError on malformed input). -/

/-- The unreserved characters of `encodeURIComponent`:
`A-Z`, `a-z`, `0-9` and `- _ . ! ~ * ' ( )` (code points 45, 95, 46, 33, 126,
42, 39, 40, 41). -/
def isUnreservedChar (c : Char) : Bool :=
  (65 ≤ c.toNat && c.toNat ≤ 90) || (97 ≤ c.toNat && c.toNat ≤ 122) ||
  (48 ≤ c.toNat && c.toNat ≤ 57) ||
  [45, 95, 46, 33, 126, 42, 39, 40, 41].contains c.toNat

/-- Uppercase hexadecimal digit character for `d < 16`. -/
def hexDigitChar (d : Nat) : Char :=
  if d < 10 then Char.ofNat (48 + d) else Char.ofNat (55 + d)

/-- Value of a hexadecimal digit character; upper- and lowercase are both
accepted, as `decodeURIComponent` does. -/
def hexVal (c : Char) : Option Nat :=
  if 48 ≤ c.toNat && c.toNat ≤ 57 then some (c.toNat - 48)
  else if 65 ≤ c.toNat && c.toNat ≤ 70 then some (c.toNat - 55)
  else if 97 ≤ c.toNat && c.toNat ≤ 102 then some (c.toNat - 87)
  else none

/-- `encodeURIComponent` on an ASCII text: unreserved characters pass through,
every other character becomes `%HH`. -/
def encodeURIComponentAscii (s : Text) : Text :=
  (s.map fun c =>
    if isUnreservedChar c then [c]
    else ['%', hexDigitChar (c.toNat / 16), hexDigitChar (c.toNat % 16)]).flatten

/-- `api.js` line 8: `const encodeId = (id) => encodeURIComponent(id)`. -/
def encodeId (id : Text) : Text := encodeURIComponentAscii id

/-- Transport decoding of a percent-encoded path segment
(`decodeURIComponent` on ASCII): `%HH` becomes the character with code
`HH`, every other character passes through; `none` models a URIError. -/
def decodeURIComponentAscii : Text → Option Text
  | [] => some []
  | '%' :: h1 :: h2 :: rest =>
    match hexVal h1, hexVal h2 with
    | some d1, some d2 =>
      (decodeURIComponentAscii rest).map (Char.ofNat (16 * d1 + d2) :: ·)
    | _, _ => none
  | '%' :: _ => none
  | c :: rest => (decodeURIComponentAscii rest).map (c :: ·)

/-! ### Request paths (api.js)

The URL builders from `api.js`, as written in the source: ids passed through
`encodeId`, session ids interpolated directly. -/

/-- `api.js` lines 52-53: `getChapter` path
``/edges/relay/${encodeId(viewerId)}/${encodeId(targetId)}/${encodeId(chapterName)}``. -/
def getChapterUrl (viewerId targetId chapterName : Text) : Text :=
  "/edges/relay/".toList ++ encodeId viewerId ++ "/".toList ++ encodeId targetId
    ++ "/".toList ++ encodeId chapterName

/-- `api.js` lines 12-13: `getSnapshots` path
``/review/sessions/${sessionId}/snapshots`` — the session id is interpolated
without `encodeId`. -/
def getSnapshotsUrl (sessionId : Text) : Text :=
  "/review/sessions/".toList ++ sessionId ++ "/snapshots".toList

/-- `api.js` lines 15-16: `getDiff` path
``/review/sessions/${sessionId}/diff/${encodeId(resourceId)}``. -/
def getDiffUrl (sessionId resourceId : Text) : Text :=
  "/review/sessions/".toList ++ sessionId ++ "/diff/".toList ++ encodeId resourceId

/-! ### Client requests

The API calls a handler can issue (api.js).  Read-only reloads issued after a
successful mutation (`loadData`, `loadVersions`, `loadSnapshots`) are included
as `get…` requests. -/

/-- One HTTP request issued through api.js. -/
inductive ApiRequest where
  | deleteStateReq (stateId : Text)
  | deleteEntityReq (entityId : Text)
  | updateEntityReq (entityId : Text) (newContent : Text) (newName : Option Text)
  | updateDirectEdgeReq (viewerId targetId : Text) (newContent : Text)
      (newRelation : Option Text)
  | updateChapterReq (viewerId targetId chapterName : Text) (newContent : Text)
  | getEntityInfoReq (entityId : Text)
  | getRelationDetailReq (viewerId targetId : Text)
  | getChapterReq (viewerId targetId chapterName : Text)
deriving DecidableEq, Repr

/-- Whether a request is one of the three update (edit-save) requests. -/
def ApiRequest.isUpdate : ApiRequest → Bool
  | .updateEntityReq _ _ _ => true
  | .updateDirectEdgeReq _ _ _ _ => true
  | .updateChapterReq _ _ _ _ => true
  | _ => false

/-! ### JavaScript string helpers -/

/-- The whitespace characters stripped by JavaScript `String.prototype.trim`
(the ASCII ones: tab, line feed, vertical tab, form feed, carriage return,
space; the Unicode space classes are not modelled). -/
def isJsWhitespace (c : Char) : Bool :=
  [9, 10, 11, 12, 13, 32].contains c.toNat

/-- JavaScript `s.trim()`: strip leading and trailing whitespace. -/
def jsTrim (s : Text) : Text :=
  ((s.dropWhile isJsWhitespace).reverse.dropWhile isJsWhitespace).reverse

/-- JavaScript truthiness of a possibly-missing text: `null`/`undefined` and
the empty string are falsy. -/
def jsTruthyText : Option Text → Bool
  | none => false
  | some t => !t.isEmpty

/-! ### EntityDetail (src/unnamed/part_000, lines 259-836)

The component state relevant to its handlers: the version history (newest
first), the selected state, the loaded state detail and its reference
counts, and the edit-mode fields. -/

/-- A state as read from the server (State read shape, spec §6). -/
structure StateRead where
  state_id : Text
  version : Nat
  name : Text
  content : Text
deriving DecidableEq, Repr

/-- `in_count`/`out_count` of the selected state (part_000 lines 374-377). -/
structure StateStats where
  in_count : Nat
  out_count : Nat
deriving DecidableEq, Repr

/-- The EntityDetail component state used by its handlers. -/
structure EntityDetailState where
  entityId : Text
  versions : List StateRead
  selectedStateId : Option Text
  stateStats : Option StateStats
  currentContent : Option StateRead
  isEditing : Bool
  editContent : Text
  editName : Text
deriving DecidableEq, Repr

/-- part_000 lines 390-410 (`handleDeleteState`): no selection means return;
a selected state with `in_count > 0` alerts and returns; an unconfirmed
dialog returns; otherwise the delete request is issued followed by the
`loadVersions` reload.  The component state is only changed by the reload's
asynchronous response, which is not modelled here. -/
def handleDeleteState (st : EntityDetailState) (confirmAnswer : Bool) :
    List ApiRequest × EntityDetailState :=
  match st.selectedStateId with
  | none => ([], st)
  | some sid =>
    if (match st.stateStats with
        | some stats => decide (stats.in_count > 0)
        | none => false) then
      ([], st)
    else if !confirmAnswer then ([], st)
    else ([.deleteStateReq sid, .getEntityInfoReq st.entityId], st)

/-- part_000 lines 412-429 (`handleDeleteEntity`): a non-empty version
history alerts and returns; an unconfirmed dialog returns; otherwise the
delete request is issued (followed by navigation away, not modelled). -/
def handleDeleteEntity (st : EntityDetailState) (confirmAnswer : Bool) :
    List ApiRequest × EntityDetailState :=
  if st.versions.length > 0 then ([], st)
  else if !confirmAnswer then ([], st)
  else ([.deleteEntityReq st.entityId], st)

/-- part_000 lines 444-465 (`EntityDetail.saveEdit`): empty trimmed content
alerts and returns; otherwise one `updateEntity` request is issued (the name
only when changed, JavaScript `!==` against `currentContent?.name`), and on
success edit mode is left and `loadVersions` reloads. -/
def entitySaveEdit (st : EntityDetailState) (succeeds : Bool) :
    List ApiRequest × EntityDetailState :=
  if jsTrim st.editContent = [] then ([], st)
  else
    let nameChanged : Bool :=
      match st.currentContent with
      | some sc => decide (st.editName ≠ sc.name)
      | none => true
    (.updateEntityReq st.entityId st.editContent
        (if nameChanged then some st.editName else none)
      :: (if succeeds then [.getEntityInfoReq st.entityId] else []),
     if succeeds then { st with isEditing := false } else st)

/-- part_000 line 726: the class of an outbound edge's version badge —
`text-slate-600` when `edge.viewer_version === currentContent.version`
(the state selected for display), the amber stale highlight otherwise. -/
def edgeVersionClass (viewerVersion displayedVersion : Nat) : Text :=
  if viewerVersion = displayedVersion then "text-slate-600".toList
  else "text-amber-500/70".toList

/-- The current version of an entity, from its newest-first history
(part_000 line 329 selects `info.history?.[0]` as the latest). -/
def currentVersionOfHistory (versions : List StateRead) : Nat :=
  match versions with
  | [] => 0
  | v :: _ => v.version

/-! ### RelationDetail (src/unnamed/part_000, lines 7-244) -/

/-- The direct-edge read used by RelationDetail (`data.direct`). -/
structure DirectRead where
  relation : Text
  content : Text
deriving DecidableEq, Repr

/-- The RelationDetail component state used by `saveEdit`. -/
structure RelationDetailState where
  viewerId : Text
  targetId : Text
  direct : Option DirectRead
  isEditing : Bool
  editContent : Text
  editRelation : Text
deriving DecidableEq, Repr

/-- part_000 lines 63-85 (`RelationDetail.saveEdit`): empty trimmed content
alerts and returns; otherwise one `updateDirectEdge` request is issued (the
relation only when changed against `data?.direct?.relation`), and on success
edit mode is left and `loadData` reloads. -/
def relationSaveEdit (st : RelationDetailState) (succeeds : Bool) :
    List ApiRequest × RelationDetailState :=
  if jsTrim st.editContent = [] then ([], st)
  else
    let relationChanged : Bool :=
      match st.direct with
      | some d => decide (st.editRelation ≠ d.relation)
      | none => true
    (.updateDirectEdgeReq st.viewerId st.targetId st.editContent
        (if relationChanged then some st.editRelation else none)
      :: (if succeeds then [.getRelationDetailReq st.viewerId st.targetId] else []),
     if succeeds then { st with isEditing := false } else st)

/-! ### ChapterDetail (src/frontend/src/features/memory/ChapterDetail.jsx) -/

/-- The ChapterDetail component state used by `saveEdit`: the three route
params may be missing (`useParams`). -/
structure ChapterDetailState where
  viewerId : Option Text
  targetId : Option Text
  chapterName : Option Text
  isEditing : Bool
  editContent : Text
deriving DecidableEq, Repr

/-- ChapterDetail.jsx line 24: `canEdit = viewerId && targetId && chapterName`. -/
def canEditChapter (st : ChapterDetailState) : Bool :=
  jsTruthyText st.viewerId && jsTruthyText st.targetId && jsTruthyText st.chapterName

/-- ChapterDetail.jsx lines 123-149 (`saveEdit`): empty trimmed content alerts
and returns; missing viewer/target/chapter info alerts and returns; otherwise
one `updateChapter` request is issued, and on success edit mode is left and
`loadData` reloads. -/
def chapterSaveEdit (st : ChapterDetailState) (succeeds : Bool) :
    List ApiRequest × ChapterDetailState :=
  if jsTrim st.editContent = [] then ([], st)
  else if !canEditChapter st then ([], st)
  else
    (.updateChapterReq (jsOrEmptyText st.viewerId) (jsOrEmptyText st.targetId)
        (jsOrEmptyText st.chapterName) st.editContent
      :: (if succeeds then
            [.getChapterReq (jsOrEmptyText st.viewerId) (jsOrEmptyText st.targetId)
              (jsOrEmptyText st.chapterName)]
          else []),
     if succeeds then { st with isEditing := false } else st)

/-! ### MaintenancePage (src/unnamed/part_001, lines 6-709) -/

/-- A row of the orphan-state query result (spec §4.4). -/
structure OrphanStateRow where
  state_id : Text
  entity_type : Text
  name : Text
  version : Nat
  in_count : Nat
  out_count : Nat
  is_current : Bool
deriving DecidableEq, Repr

/-- part_001 line 70: `orphanStates.states.some(s =>
selectedStateIds.has(s.state_id) && s.is_current)`. -/
def deleteStatesHasCurrent (states : List OrphanStateRow) (selectedStateIds : List Text) :
    Bool :=
  states.any fun s => selectedStateIds.contains s.state_id && s.is_current

/-- The CURRENT-version warning block of the batch-delete confirmation
(part_001 line 74). -/
def currentWarningText : Text :=
  ("\n\n⚠️ WARNING: You have selected CURRENT version(s).\n"
    ++ "Deleting them will revert the entity to its previous version.").toList

/-- The opening line of the batch-delete confirmation (part_001 line 72). -/
def deleteStatesBaseText (selectedStateIds : List Text) : Text :=
  "Delete ".toList ++ (Nat.repr selectedStateIds.length).toList
    ++ " state(s)? This cannot be undone.".toList

/-- The selected-ids tail of the batch-delete confirmation (part_001
lines 77-78): the first five ids joined by newlines, then a `... and N more`
line when more than five are selected. -/
def deleteStatesIdsText (selectedStateIds : List Text) : Text :=
  "\n\nSelected IDs:\n".toList
    ++ List.intercalate "\n".toList (selectedStateIds.take 5)
    ++ (if selectedStateIds.length > 5 then
          "\n... and ".toList ++ (Nat.repr (selectedStateIds.length - 5)).toList
            ++ " more".toList
        else [])

/-- part_001 lines 72-78: the full confirmation message shown by
`handleDeleteStates`, with the CURRENT warning appended exactly when a
selected id is flagged `is_current`. -/
def deleteStatesMessage (states : List OrphanStateRow) (selectedStateIds : List Text) :
    Text :=
  deleteStatesBaseText selectedStateIds
    ++ (if deleteStatesHasCurrent states selectedStateIds then currentWarningText else [])
    ++ deleteStatesIdsText selectedStateIds

/-- part_001 lines 259 and 361: the limit input `onChange` value,
`Math.max(1, Math.min(500, parseInt(e.target.value) || 100))`.  JavaScript
`parseInt` is modelled below; `NaN` (no digits) is `none`. -/
def digitsVal : Text → Nat → Nat
  | [], acc => acc
  | c :: cs, acc => digitsVal cs (acc * 10 + (c.toNat - 48))

/-- JavaScript `parseInt(s)` on decimal input: skip leading whitespace, read
an optional sign and then a maximal run of decimal digits; no digits gives
`NaN`, modelled as `none`. -/
def jsParseInt (s : Text) : Option Int :=
  let body := s.dropWhile isJsWhitespace
  let parseDigits : Text → Option Nat := fun t =>
    let ds := t.takeWhile Char.isDigit
    if ds.isEmpty then none else some (digitsVal ds 0)
  match body with
  | '-' :: rest => (parseDigits rest).map fun n => -(n : Int)
  | '+' :: rest => (parseDigits rest).map fun n => (n : Int)
  | _ => (parseDigits body).map fun n => (n : Int)

/-- JavaScript `x || d` on a number: `NaN` and `0` are falsy and give the
default. -/
def jsOrDefaultInt (v : Option Int) (d : Int) : Int :=
  match v with
  | none => d
  | some n => if n = 0 then d else n

/-- The stored limit after an input change (part_001 lines 259 and 361). -/
def limitOnChange (inputValue : Text) : Int :=
  max 1 (min 500 (jsOrDefaultInt (jsParseInt inputValue) 100))

/-- The initial limit of both limit fields (part_001 lines 12 and 21,
`useState(100)`). -/
def initialLimit : Int := 100

/-! ### Server-side operations

The server is not part of this repository (only the client is under src/);
where a claim speaks about it, its operations are modelled from the spec
(§3, §4.1, §4.3), and for rollback additionally from the client's own comment
at part_001 lines 799-804, which records that the rollback endpoint does not
delete the snapshot. -/

/-- The error taxonomy of spec §7. -/
inductive ApiError where
  | notFound
  | conflict
  | validationError
  | internal
deriving DecidableEq, Repr

/-- Modelled from the spec: the part of the VersionedStore visible to
`deleteState` — each state id with its `in_count` (§4.1). -/
def deleteStateSpec (store : List (Text × Nat)) (stateId : Text) :
    Except ApiError (List (Text × Nat)) :=
  match store.lookup stateId with
  | none => .error .notFound
  | some inCount =>
    if inCount > 0 then .error .conflict
    else .ok (store.filter fun p => p.1 != stateId)

/-- Modelled from the spec: `deleteEntity` fails with `Conflict` if the
entity still owns any state; only a stateless entity is deleted (§4.1). -/
def deleteEntitySpec (ownedStates : List Text) : Except ApiError Unit :=
  if ownedStates.isEmpty then .ok () else .error .conflict

/-- A reviewed resource on the server: its live content (`none` when the
resource does not exist) and its pending snapshot (`none` when no snapshot is
recorded; `some sc` is a snapshot whose pre-session content is `sc`, where
`sc = none` records a `create`).  Modelled from the spec §3. -/
structure ReviewedResource where
  live : Option Text
  snap : Option (Option Text)
deriving DecidableEq, Repr

/-- Modelled from the spec and the client comment (part_001 lines 799-804):
the rollback endpoint restores the resource to the snapshot content but does
not delete the snapshot ("the API doesn't auto-delete snapshot on rollback");
`none` models a failed request (no snapshot recorded). -/
def rollbackRequest (r : ReviewedResource) : Option ReviewedResource :=
  match r.snap with
  | some sc => some { live := sc, snap := some sc }
  | none => none

/-- Modelled from the spec (§4.3 `approve`): discard the snapshot, keeping
the live content; `none` models a failed request (no snapshot recorded). -/
def approveRequest (r : ReviewedResource) : Option ReviewedResource :=
  match r.snap with
  | some _ => some { r with snap := none }
  | none => none

/-- part_001 lines 793-809 (`handleRollback`): the client rolls a resource
back with one request and then deletes its snapshot with a second, separate
`approveSnapshot` request; an error at either request is caught (alert),
leaving whatever state the requests completed so far.  `rollbackFails` and
`approveFails` model transport failures of the two requests. -/
def handleRollback (r : ReviewedResource) (rollbackFails approveFails : Bool) :
    ReviewedResource :=
  if rollbackFails then r
  else
    match rollbackRequest r with
    | none => r
    | some r1 =>
      if approveFails then r1
      else
        match approveRequest r1 with
        | none => r1
        | some r2 => r2

/-! ## Supporting lemmas -/

/-- The line tokenizer loses nothing: joining the tokens gives the text back. -/
theorem join_splitLinesKeep (s : Text) : (splitLinesKeep s).flatten = s := by
  induction s with
  | nil => rfl
  | cons c cs ih =>
    by_cases h : c = '\n'
    · simp [splitLinesKeep, h, List.flatten]
      exact ih
    · simp only [splitLinesKeep, if_neg h]
      cases hs : splitLinesKeep cs with
      | nil =>
        rw [hs] at ih
        simp [List.flatten] at ih
        simp [List.flatten, ih]
      | cons l ls =>
        rw [hs] at ih
        simp [List.flatten] at ih ⊢
        exact ih

theorem splitLinesKeep_injective {s t : Text} (h : splitLinesKeep s = splitLinesKeep t) :
    s = t := by
  have := congrArg List.flatten h
  rwa [join_splitLinesKeep, join_splitLinesKeep] at this

theorem diffTokens_source {α : Type} [DecidableEq α] (xs ys : List α) :
    sourceTokens (diffTokens xs ys) = xs := by
  induction xs, ys using diffTokens.induct
  case case6 =>
    rename_i x xs y ys hne hlt ih
    rw [diffTokens, if_neg hne, if_neg (by omega)]
    simpa [sourceTokens] using ih
  all_goals simp_all [diffTokens, sourceTokens]

theorem diffTokens_target {α : Type} [DecidableEq α] (xs ys : List α) :
    targetTokens (diffTokens xs ys) = ys := by
  induction xs, ys using diffTokens.induct
  case case6 =>
    rename_i x xs y ys hne hlt ih
    rw [diffTokens, if_neg hne, if_neg (by omega)]
    simpa [targetTokens] using ih
  all_goals simp_all [diffTokens, targetTokens]

theorem sourceTokens_eq_targetTokens_of_allEqual {α : Type}
    (ps : List (DiffPart α)) (h : ∀ p ∈ ps, p.isEqual = true) :
    sourceTokens ps = targetTokens ps := by
  induction ps with
  | nil => rfl
  | cons p ps ih =>
    cases p with
    | added v => exact absurd (h _ (List.mem_cons_self _ _)) (by simp [DiffPart.isEqual])
    | removed v => exact absurd (h _ (List.mem_cons_self _ _)) (by simp [DiffPart.isEqual])
    | equal v =>
      have := ih fun p hp => h p (List.mem_cons_of_mem _ hp)
      simp [sourceTokens, targetTokens, this]

theorem diffTokens_self_allEqual {α : Type} [DecidableEq α] (xs : List α) :
    ∀ p ∈ diffTokens xs xs, p.isEqual = true := by
  induction xs with
  | nil => simp [diffTokens]
  | cons x xs ih =>
    intro p hp
    rw [diffTokens, if_pos rfl] at hp
    rcases List.mem_cons.mp hp with h | h
    · simp [h, DiffPart.isEqual]
    · exact ih p h

/-- The diff of two token lists consists only of `equal` runs exactly when the
lists are identical. -/
theorem diffTokens_allEqual_iff {α : Type} [DecidableEq α] (xs ys : List α) :
    (∀ p ∈ diffTokens xs ys, p.isEqual = true) ↔ xs = ys := by
  constructor
  · intro h
    have h1 := diffTokens_source xs ys
    have h2 := diffTokens_target xs ys
    have h3 := sourceTokens_eq_targetTokens_of_allEqual _ h
    rw [h1, h2] at h3
    exact h3
  · rintro rfl
    exact diffTokens_self_allEqual xs

theorem hexVal_hexDigitChar (d : Nat) (h : d < 16) :
    hexVal (hexDigitChar d) = some d := by
  interval_cases d <;> rfl

theorem isUnreservedChar_ne_percent {c : Char} (h : isUnreservedChar c = true) :
    ¬c = '%' := by
  intro hc
  rw [hc] at h
  exact absurd h (by decide)

theorem decodeURIComponentAscii_cons_of_ne {c : Char} (hne : ¬c = '%') (rest : Text) :
    decodeURIComponentAscii (c :: rest) = (decodeURIComponentAscii rest).map (c :: ·) := by
  rw [decodeURIComponentAscii.eq_def]
  split
  · rename_i heq; exact absurd heq (by simp)
  · rename_i heq; injection heq with h1 _; exact absurd h1 hne
  · rename_i heq; injection heq with h1 _; exact absurd h1 hne
  · rename_i heq; injection heq with h1 h2; rw [← h1, ← h2]

/-- Decoding is a left inverse of encoding on ASCII texts. -/
theorem decode_encodeURIComponentAscii (s : Text) (h : ∀ c ∈ s, c.toNat < 128) :
    decodeURIComponentAscii (encodeURIComponentAscii s) = some s := by
  induction s with
  | nil => rfl
  | cons c cs ih =>
    have hc : c.toNat < 128 := h c (List.mem_cons_self _ _)
    have ihcs := ih fun x hx => h x (List.mem_cons_of_mem _ hx)
    by_cases hu : isUnreservedChar c = true
    · simp only [encodeURIComponentAscii, List.map_cons, List.flatten_cons, if_pos hu,
        List.singleton_append]
      rw [decodeURIComponentAscii_cons_of_ne (isUnreservedChar_ne_percent hu)]
      simp only [encodeURIComponentAscii] at ihcs
      rw [ihcs]
      rfl
    · simp only [encodeURIComponentAscii, List.map_cons, List.flatten_cons, if_neg hu,
        List.cons_append, List.nil_append]
      rw [decodeURIComponentAscii]
      rw [hexVal_hexDigitChar _ (by omega), hexVal_hexDigitChar _ (by omega)]
      simp only [encodeURIComponentAscii] at ihcs
      rw [ihcs]
      have hdm : 16 * (c.toNat / 16) + c.toNat % 16 = c.toNat := Nat.div_add_mod _ _
      simp only [Option.map_some]
      rw [hdm, Char.ofNat_toNat]
      rfl

/-- Encoding is injective on ASCII texts. -/
theorem encodeURIComponentAscii_injective {s t : Text}
    (hs : ∀ c ∈ s, c.toNat < 128) (ht : ∀ c ∈ t, c.toNat < 128)
    (h : encodeURIComponentAscii s = encodeURIComponentAscii t) : s = t := by
  have h1 := decode_encodeURIComponentAscii s hs
  have h2 := decode_encodeURIComponentAscii t ht
  rw [h, h2] at h1
  exact (Option.some_injective _ h1).symm

/-! ## Claims -/

/-- C1 (counterexample): the claimed atomicity — after rollback completes or
fails partway, either the snapshot is gone (full rollback) or nothing changed
— is false: when the rollback request succeeds and the approve request fails,
the resource is left rolled back while its snapshot still exists. -/
theorem rollback_atomicity_cex :
    ¬ (∀ (r : ReviewedResource) (rollbackFails approveFails : Bool),
        (handleRollback r rollbackFails approveFails).snap = none
        ∨ handleRollback r rollbackFails approveFails = r) := by
  intro h
  rcases h ⟨some "B".toList, some (some "A".toList)⟩ false true with h1 | h1
  · exact absurd h1 (by decide)
  · exact absurd h1 (by decide)

/-- C1 (amended): the client performs rollback as two separate requests.
When both succeed the resource is restored to the snapshot content and the
snapshot is discarded; when the approve request fails after a successful
rollback, the resource is left rolled back while its snapshot still exists;
when the rollback request fails, everything is unchanged. -/
theorem handleRollback_two_requests (r : ReviewedResource) (sc : Option Text)
    (h : r.snap = some sc) :
    handleRollback r false false = { live := sc, snap := none }
    ∧ handleRollback r false true = { live := sc, snap := some sc }
    ∧ (∀ approveFails, handleRollback r true approveFails = r) := by
  unfold handleRollback rollbackRequest approveRequest
  rw [h]
  simp

/-- C1 (witness): the amended behaviour at a concrete resource. -/
theorem handleRollback_two_requests_witness :
    (ReviewedResource.mk (some "B".toList) (some (some "A".toList))).snap
        = some (some "A".toList)
    ∧ handleRollback ⟨some "B".toList, some (some "A".toList)⟩ false false
        = ⟨some "A".toList, none⟩ :=
  ⟨rfl, (handleRollback_two_requests ⟨some "B".toList, some (some "A".toList)⟩
          (some "A".toList) rfl).1⟩

/-- C2: the line diff produces only `equal` runs exactly when the two texts
are identical; equivalently `has_changes` is `false` exactly when snapshot
content and current content are equal as texts. -/
theorem diff_onlyEqual_iff_texts_eq (snapshotContent currentContent : Text) :
    ((∀ p ∈ diffLines snapshotContent currentContent, p.isEqual = true) ↔
      snapshotContent = currentContent)
    ∧ (hasChanges snapshotContent currentContent = false ↔
      snapshotContent = currentContent) := by
  have key : (∀ p ∈ diffLines snapshotContent currentContent, p.isEqual = true) ↔
      snapshotContent = currentContent := by
    rw [diffLines, diffTokens_allEqual_iff]
    constructor
    · exact splitLinesKeep_injective
    · rintro rfl; rfl
  refine ⟨key, ?_⟩
  rw [← key]
  unfold hasChanges
  rw [List.any_eq_false]
  simp

/-- C3: for a selected state whose `in_count` is positive, the delete-state
handler issues no request and leaves the component state exactly as it was,
and the spec-modelled `deleteState` fails with `Conflict`. -/
theorem deleteState_inCount_guard
    (st : EntityDetailState) (confirmAnswer : Bool) (stats : StateStats)
    (store : List (Text × Nat)) (sid : Text)
    (hstats : st.stateStats = some stats) (hpos : 0 < stats.in_count)
    (hstore : store.lookup sid = some stats.in_count) :
    handleDeleteState st confirmAnswer = ([], st)
    ∧ deleteStateSpec store sid = .error .conflict := by
  constructor
  · unfold handleDeleteState
    cases st.selectedStateId with
    | none => rfl
    | some s => rw [hstats]; simp [hpos]
  · unfold deleteStateSpec
    rw [hstore]
    simp [hpos]

/-- C3 (witness): the guard at a concrete state with `in_count = 2`. -/
theorem deleteState_inCount_guard_witness :
    0 < (2 : Nat)
    ∧ handleDeleteState
        ⟨"e1".toList, [], some "s1".toList, some ⟨2, 0⟩, none, false, [], []⟩ true
        = ([], ⟨"e1".toList, [], some "s1".toList, some ⟨2, 0⟩, none, false, [], []⟩)
    ∧ deleteStateSpec [("s1".toList, 2)] "s1".toList = .error .conflict := by
  refine ⟨by decide, ?_, ?_⟩
  · exact (deleteState_inCount_guard _ true ⟨2, 0⟩ [("s1".toList, 2)] "s1".toList
      rfl (by decide) rfl).1
  · exact (deleteState_inCount_guard
      ⟨"e1".toList, [], some "s1".toList, some ⟨2, 0⟩, none, false, [], []⟩ true ⟨2, 0⟩
      [("s1".toList, 2)] "s1".toList rfl (by decide) rfl).2

/-- C4 (counterexample): the claim that every id placed into a request path —
session ids included — goes through the lossless escape is false: the
`getSnapshots` path interpolates the session id raw, so for a session id
containing the reserved character `/` the path differs from the escaped
form. -/
theorem sessionId_not_escaped_cex :
    getSnapshotsUrl "a/b".toList
      ≠ "/review/sessions/".toList ++ encodeId "a/b".toList ++ "/snapshots".toList
    ∧ '/' ∈ "a/b".toList := by decide

/-- C4 (amended): ids passed through `encodeId` (entity, state, edge, chapter
and resource ids) are escaped losslessly — encoding is injective on ASCII ids
and transport decoding recovers the id exactly, including ids containing
`/`, `%` and spaces — while session ids are interpolated into paths
unescaped. -/
theorem encodeId_lossless (id : Text) (h : ∀ c ∈ id, c.toNat < 128) :
    decodeURIComponentAscii (encodeId id) = some id
    ∧ (∀ id2 : Text, (∀ c ∈ id2, c.toNat < 128) → encodeId id = encodeId id2 → id = id2)
    ∧ (∀ viewerId targetId chapterName : Text,
        getChapterUrl viewerId targetId chapterName =
          "/edges/relay/".toList ++ encodeId viewerId ++ "/".toList ++ encodeId targetId
            ++ "/".toList ++ encodeId chapterName)
    ∧ (∀ sessionId : Text,
        getSnapshotsUrl sessionId =
          "/review/sessions/".toList ++ sessionId ++ "/snapshots".toList) :=
  ⟨decode_encodeURIComponentAscii id h,
   fun _ h2 he => encodeURIComponentAscii_injective h h2 he,
   fun _ _ _ => rfl, fun _ => rfl⟩

/-- C4 (witness): losslessness at an id containing `/`, a space and `%`. -/
theorem encodeId_lossless_witness :
    (∀ c ∈ "a/b c%".toList, c.toNat < 128)
    ∧ decodeURIComponentAscii (encodeId "a/b c%".toList) = some "a/b c%".toList :=
  ⟨by decide, (encodeId_lossless "a/b c%".toList (by decide)).1⟩

/-- C5 (counterexample): the claim that the stale highlight compares the
edge's `viewer_version` against the entity's current (highest) version
regardless of the selected state is false: with history versions `[2, 1]`,
the older state (version 1) selected and an edge pinned to version 1, the
code renders the non-stale class although `1 ≠ 2`. -/
theorem edgeStale_vs_current_cex :
    ¬ (∀ (versions : List StateRead) (selected : StateRead) (viewerVersion : Nat),
        selected ∈ versions →
        (edgeVersionClass viewerVersion selected.version = "text-amber-500/70".toList
          ↔ viewerVersion ≠ currentVersionOfHistory versions)) := by
  intro h
  have h1 := h [⟨"s2".toList, 2, [], []⟩, ⟨"s1".toList, 1, [], []⟩]
      ⟨"s1".toList, 1, [], []⟩ 1 (by decide)
  exact absurd (h1.mpr (by decide)) (by decide)

/-- C5 (amended): the outbound-edge version badge is highlighted as stale
exactly when the edge's `viewer_version` differs from the version of the
state currently selected for display; the state selected on load is the
history head, whose version is the entity's current version. -/
theorem edgeVersionClass_amber_iff (viewerVersion displayedVersion : Nat) :
    (edgeVersionClass viewerVersion displayedVersion = "text-amber-500/70".toList
      ↔ viewerVersion ≠ displayedVersion)
    ∧ (∀ (v : StateRead) (rest : List StateRead),
        currentVersionOfHistory (v :: rest) = v.version) := by
  refine ⟨?_, fun _ _ => rfl⟩
  unfold edgeVersionClass
  by_cases h : viewerVersion = displayedVersion
  · rw [if_pos h]
    simp [h]
  · rw [if_neg h]
    simp [h]

/-- C6: the delete-entity handler issues no request while the version history
is non-empty, and for the spec-modelled `deleteEntity` an entity still owning
states fails with `Conflict` while a stateless one succeeds — so under the
precondition of an empty history the `Conflict` branch is unreachable. -/
theorem deleteEntity_orphan_guard (st : EntityDetailState) (confirmAnswer : Bool)
    (ownedStates : List Text) (hvers : st.versions ≠ []) :
    handleDeleteEntity st confirmAnswer = ([], st)
    ∧ (ownedStates ≠ [] → deleteEntitySpec ownedStates = .error .conflict)
    ∧ (ownedStates = [] → deleteEntitySpec ownedStates = .ok ()) := by
  refine ⟨?_, ?_, ?_⟩
  · unfold handleDeleteEntity
    rw [if_pos (List.length_pos.mpr hvers)]
  · intro hne
    unfold deleteEntitySpec
    rw [if_neg (by simpa [List.isEmpty_iff] using hne)]
  · rintro rfl
    rfl

/-- C6 (witness): the guard at a concrete entity with one remaining state. -/
theorem deleteEntity_orphan_guard_witness :
    ([⟨"s1".toList, 1, [], []⟩] : List StateRead) ≠ []
    ∧ handleDeleteEntity
        ⟨"e1".toList, [⟨"s1".toList, 1, [], []⟩], none, none, none, false, [], []⟩ true
        = ([], ⟨"e1".toList, [⟨"s1".toList, 1, [], []⟩], none, none, none, false, [], []⟩) := by
  refine ⟨by decide, ?_⟩
  exact (deleteEntity_orphan_guard _ true [] (by decide)).1

/-- C7 (counterexample): the claim that every edit-save with non-empty trimmed
content issues exactly one update request is false for ChapterDetail: with
non-empty content but a missing chapter route param, `saveEdit` issues no
request at all. -/
theorem chapterSaveEdit_missing_param_cex :
    jsTrim "x".toList ≠ []
    ∧ (chapterSaveEdit ⟨some "v".toList, some "t".toList, none, true, "x".toList⟩
        true).1 = [] := by decide

/-- C7 (amended): each of the three edit-save handlers issues no request and
leaves the edit state unchanged when the content trims to empty; with
non-empty trimmed content the entity and direct-edge handlers issue exactly
one update request, and the chapter handler does so exactly when its viewer,
target and chapter route params are all present (otherwise it issues
nothing). -/
theorem saveEdit_validation_guard
    (rst : RelationDetailState) (est : EntityDetailState) (cst : ChapterDetailState)
    (succeeds : Bool) :
    (jsTrim rst.editContent = [] → relationSaveEdit rst succeeds = ([], rst))
    ∧ (jsTrim est.editContent = [] → entitySaveEdit est succeeds = ([], est))
    ∧ (jsTrim cst.editContent = [] → chapterSaveEdit cst succeeds = ([], cst))
    ∧ (jsTrim rst.editContent ≠ [] →
        (relationSaveEdit rst succeeds).1.countP (fun r => r.isUpdate) = 1)
    ∧ (jsTrim est.editContent ≠ [] →
        (entitySaveEdit est succeeds).1.countP (fun r => r.isUpdate) = 1)
    ∧ (jsTrim cst.editContent ≠ [] → canEditChapter cst = true →
        (chapterSaveEdit cst succeeds).1.countP (fun r => r.isUpdate) = 1)
    ∧ (jsTrim cst.editContent ≠ [] → canEditChapter cst = false →
        (chapterSaveEdit cst succeeds).1 = []) := by
  refine ⟨?_, ?_, ?_, ?_, ?_, ?_, ?_⟩
  · intro h
    unfold relationSaveEdit
    rw [if_pos h]
  · intro h
    unfold entitySaveEdit
    rw [if_pos h]
  · intro h
    unfold chapterSaveEdit
    rw [if_pos h]
  · intro h
    unfold relationSaveEdit
    rw [if_neg h]
    cases succeeds <;> simp [List.countP_cons, ApiRequest.isUpdate]
  · intro h
    unfold entitySaveEdit
    rw [if_neg h]
    cases succeeds <;> simp [List.countP_cons, ApiRequest.isUpdate]
  · intro h hce
    unfold chapterSaveEdit
    rw [if_neg h, hce]
    cases succeeds <;> simp [List.countP_cons, ApiRequest.isUpdate]
  · intro h hce
    unfold chapterSaveEdit
    rw [if_neg h, hce]
    rfl

/-- C7 (witness): a non-empty direct-edge edit issues exactly one update
request, and a whitespace-only entity edit issues none. -/
theorem saveEdit_validation_guard_witness :
    jsTrim "x".toList ≠ []
    ∧ (relationSaveEdit ⟨"v".toList, "t".toList, none, true, "x".toList, []⟩
        true).1.countP (fun r => r.isUpdate) = 1
    ∧ jsTrim "  ".toList = []
    ∧ entitySaveEdit ⟨"e".toList, [], none, none, none, true, "  ".toList, []⟩ true
        = ([], ⟨"e".toList, [], none, none, none, true, "  ".toList, []⟩) := by
  refine ⟨by decide, ?_, by decide, ?_⟩
  · exact (saveEdit_validation_guard ⟨"v".toList, "t".toList, none, true, "x".toList, []⟩
      ⟨"e".toList, [], none, none, none, true, "  ".toList, []⟩
      ⟨none, none, none, false, []⟩ true).2.2.2.1 (by decide)
  · exact (saveEdit_validation_guard ⟨"v".toList, "t".toList, none, true, "x".toList, []⟩
      ⟨"e".toList, [], none, none, none, true, "  ".toList, []⟩
      ⟨none, none, none, false, []⟩ true).2.1 (by decide)

/-- C8: the batch-delete confirmation message contains the CURRENT-version
warning (its `⚠` marker) exactly when at least one selected state id belongs
to a row flagged `is_current` in the orphan-query result, provided neither
the opening line nor the selected-ids tail happens to contain `⚠` itself. -/
theorem deleteStatesMessage_warning_iff
    (states : List OrphanStateRow) (selectedStateIds : List Text)
    (hbase : '⚠' ∉ deleteStatesBaseText selectedStateIds)
    (hids : '⚠' ∉ deleteStatesIdsText selectedStateIds) :
    '⚠' ∈ deleteStatesMessage states selectedStateIds
      ↔ ∃ s ∈ states, s.state_id ∈ selectedStateIds ∧ s.is_current = true := by
  have hflag : deleteStatesHasCurrent states selectedStateIds = true ↔
      ∃ s ∈ states, s.state_id ∈ selectedStateIds ∧ s.is_current = true := by
    unfold deleteStatesHasCurrent
    simp [List.any_eq_true]
  unfold deleteStatesMessage
  by_cases hcur : deleteStatesHasCurrent states selectedStateIds = true
  · rw [if_pos hcur]
    simp only [List.mem_append]
    constructor
    · intro _
      exact hflag.mp hcur
    · intro _
      exact Or.inl (Or.inr (by decide))
  · rw [if_neg hcur]
    simp only [List.mem_append]
    constructor
    · intro hmem
      rcases hmem with (hmem | hmem) | hmem
      · exact absurd hmem hbase
      · exact absurd hmem (by simp)
      · exact absurd hmem hids
    · intro hex
      exact absurd (hflag.mpr hex) hcur

/-- C8 (witness): selecting a CURRENT-flagged row puts the warning marker in
the message. -/
theorem deleteStatesMessage_warning_iff_witness :
    '⚠' ∉ deleteStatesBaseText ["s1".toList]
    ∧ '⚠' ∉ deleteStatesIdsText ["s1".toList]
    ∧ '⚠' ∈ deleteStatesMessage
        [⟨"s1".toList, "Character".toList, "n".toList, 1, 0, 0, true⟩] ["s1".toList] := by
  refine ⟨by decide, by decide, ?_⟩
  exact (deleteStatesMessage_warning_iff
      [⟨"s1".toList, "Character".toList, "n".toList, 1, 0, 0, true⟩] ["s1".toList]
      (by decide) (by decide)).mpr
    ⟨⟨"s1".toList, "Character".toList, "n".toList, 1, 0, 0, true⟩, by decide, by decide, rfl⟩

/-- C9: the limit stored by the orphan-search limit inputs is always an
integer in `[1, 500]` (as is the initial value 100), and non-numeric or zero
input yields the default 100. -/
theorem limit_range_invariant (inputValue : Text) :
    (1 ≤ limitOnChange inputValue ∧ limitOnChange inputValue ≤ 500)
    ∧ ((jsParseInt inputValue = none ∨ jsParseInt inputValue = some 0) →
        limitOnChange inputValue = 100)
    ∧ (1 ≤ initialLimit ∧ initialLimit ≤ 500) := by
  refine ⟨⟨le_max_left _ _, max_le (by norm_num) (min_le_left _ _)⟩, ?_, by decide⟩
  intro h
  unfold limitOnChange
  rcases h with h | h <;> rw [h] <;> decide

/-- C9 (witness): the zero input yields the default 100, inside the range. -/
theorem limit_range_invariant_witness :
    1 ≤ limitOnChange "0".toList ∧ limitOnChange "0".toList = 100 :=
  ⟨(limit_range_invariant "0".toList).1.1,
   (limit_range_invariant "0".toList).2.1 (Or.inr (by decide))⟩

/-- C10: both diff renderers substitute the empty string for a missing
(`null`/`undefined`) text before diffing, so the diff of a missing text
produces exactly the runs of the diff against the empty text, on either
side. -/
theorem diffRenderers_missing_text_total (x : Option Text) :
    simpleDiffParts none x = simpleDiffParts (some []) x
    ∧ simpleDiffParts x none = simpleDiffParts x (some [])
    ∧ diffViewerParts none x = diffViewerParts (some []) x
    ∧ diffViewerParts x none = diffViewerParts x (some []) :=
  ⟨rfl, rfl, rfl, rfl⟩

end Nocturne
